import Mathlib

/-
Verification development for the rock-paper-scissors matchmaking backend
(src/server.js). The server keeps three pieces of shared mutable state:
the socket registry (io.sockets.sockets), the FIFO list waitingPlayers,
and the map rematchRequests. Each inbound socket event is handled by one
handler that reads and mutates this state and emits events to sockets.

The embedding below translates each handler into a pure function from a
ServerState to a new ServerState together with the list of emitted
events, in the order the source emits them. Socket objects are mutable
and aliased in the source; here every read and write goes through the
registry, keyed by the socket id, which models that aliasing (two
lookups of the same id see the same session record). Socket.io removes
a socket from the registry before the disconnect handler runs, and the
handler closure still reads the socket fields; disconnect below mirrors
that order. The external token-mint call and its tokensSent
notification are an external collaborator and are not modeled; the
handler state transitions and all other emitted events are.
-/

/-- Socket identifiers, assigned by the transport. -/
abbrev SId := Nat

def rockS : String := "rock"

def paperS : String := "paper"

def scissorsS : String := "scissors"

def drawS : String := "draw"

def winS : String := "win"

def loseS : String := "lose"

def offererS : String := "offerer"

def answererS : String := "answerer"

def resDraw : String := "Draw"

def resWon : String := "You won!"

def resLost : String := "You lost!"

def welcomeMsg : String := "Welcome to the Rock Paper Scissors game!"

def oppUnavailableMsg : String := "Your opponent is no longer available."

def oppDisconnectedMsg : String := "Your opponent has disconnected."

def noOpponentMsg : String := "You have no opponent to rematch with."

def newOpponentMsg : String := "Your opponent has decided to find a new opponent."

/-- Per-socket mutable fields used by server.js: walletAddress, opponent
and move are attached directly to the socket object. -/
structure Session where
  id : SId
  walletAddress : Option String
  opponent : Option SId
  move : Option String
deriving DecidableEq

/-- Events emitted to sockets, one constructor per emit in server.js. -/
inductive Ev where
  | welcome (msg : String)
  | waitingForOpponent
  | matchFound (opponentId : SId) (role : String)
  | signal (fromId : SId) (payload : String)
  | opponentDisconnected (msg : String)
  | gameResult (result : String)
  | opponentWantsRematch
  | waitingForOpponentRematch
  | rematchReady (opponentId : SId)
  | opponentLeft (msg : String)
deriving DecidableEq

/-- The shared server state: socket registry, FIFO waiting list, and the
rematchRequests map (JS truthiness of a possibly missing entry is a
Bool defaulting to false). -/
structure ServerState where
  registry : SId → Option Session
  waitingPlayers : List SId
  rematchRequests : SId → Bool

def setSock (reg : SId → Option Session) (i : SId) (s : Session) : SId → Option Session :=
  fun j => if j = i then some s else reg j

def delSock (reg : SId → Option Session) (i : SId) : SId → Option Session :=
  fun j => if j = i then none else reg j

/-- Assign the opponent field of the socket with id i, a no-op when the
socket is absent (a live socket is always present at every call site). -/
def updOpp (reg : SId → Option Session) (i : SId) (v : Option SId) : SId → Option Session :=
  fun j => if j = i then (reg i).map (fun s => { s with opponent := v }) else reg j

/-- Assign the move field of the socket with id i, a no-op when absent. -/
def updMove (reg : SId → Option Session) (i : SId) (v : Option String) : SId → Option Session :=
  fun j => if j = i then (reg i).map (fun s => { s with move := v }) else reg j

def setRR (rr : SId → Bool) (i : SId) (b : Bool) : SId → Bool :=
  fun j => if j = i then b else rr j

/-- determineWinner from server.js lines 68-78, on the raw move strings,
from the perspective of player1. -/
def determineWinner (player1Move player2Move : String) : String :=
  if player1Move = player2Move then drawS
  else if (player1Move = rockS ∧ player2Move = scissorsS) ∨
          (player1Move = scissorsS ∧ player2Move = paperS) ∨
          (player1Move = paperS ∧ player2Move = rockS) then winS
  else loseS

/-- Membership in the legal move set. -/
def isMove (m : String) : Prop := m = rockS ∨ m = paperS ∨ m = scissorsS

/-- matchmaking from server.js lines 81-109, written as structural
recursion over the waiting list it consumes: an empty list enqueues the
caller and emits waitingForOpponent; otherwise the head is popped, and
if it is still registered both opponent fields are assigned and the two
matchFound events are emitted, else the stale head is dropped and the
loop retries. Returns the new registry, the new waiting list and the
emitted events. -/
def matchLoop (reg : SId → Option Session) (i : SId) :
    List SId → (SId → Option Session) × List SId × List (SId × Ev)
  | [] => (reg, [i], [(i, Ev.waitingForOpponent)])
  | opponentId :: rest =>
    match reg opponentId with
    | some _ =>
      let reg1 := updOpp reg i (some opponentId)
      let reg2 := updOpp reg1 opponentId (some i)
      (reg2, rest,
        [(i, Ev.matchFound opponentId offererS), (opponentId, Ev.matchFound i answererS)])
    | none => matchLoop reg i rest

def matchmaking (st : ServerState) (i : SId) : ServerState × List (SId × Ev) :=
  let r := matchLoop st.registry i st.waitingPlayers
  ({ st with registry := r.1, waitingPlayers := r.2.1 }, r.2.2)

/-- A session as created on connection: every field but the id empty. -/
def freshSession (i : SId) : Session :=
  ⟨i, none, none, none⟩

/-- Connection handler, server.js line 112-115: register the socket and
emit the welcome message. -/
def connectEv (st : ServerState) (i : SId) : ServerState × List (SId × Ev) :=
  ({ st with registry := setSock st.registry i (freshSession i) },
   [(i, Ev.welcome welcomeMsg)])

/-- readyToPlay handler, server.js lines 124-127. -/
def readyToPlay (st : ServerState) (i : SId) : ServerState × List (SId × Ev) :=
  matchmaking st i

/-- setWalletAddress handler, server.js lines 118-121. -/
def setWalletAddress (st : ServerState) (i : SId) (w : String) :
    ServerState × List (SId × Ev) :=
  match st.registry i with
  | some s => ({ st with registry := setSock st.registry i { s with walletAddress := some w } }, [])
  | none => (st, [])

/-- signal handler, server.js lines 130-142: forward the payload to the
target socket when it exists, else notify the sender. -/
def signalRelay (st : ServerState) (i toId fromId : SId) (payload : String) :
    ServerState × List (SId × Ev) :=
  match st.registry toId with
  | some _ => (st, [(toId, Ev.signal fromId payload)])
  | none => (st, [(i, Ev.opponentDisconnected oppUnavailableMsg)])

/-- playerMove handler, server.js lines 145-207: store the submitted move
unconditionally, then, when an opponent is set, registered, and has a
stored move, resolve the round, emit the two gameResult events (winner
first in the decisive case) and clear both moves. The external mint call
is not modeled. -/
def playerMove (st : ServerState) (i : SId) (mv : String) : ServerState × List (SId × Ev) :=
  match st.registry i with
  | none => (st, [])
  | some socket0 =>
    let socket := { socket0 with move := some mv }
    let reg0 := setSock st.registry i socket
    match socket.opponent with
    | none => ({ st with registry := reg0 }, [])
    | some oppId =>
      match reg0 oppId with
      | none => ({ st with registry := reg0 }, [])
      | some opponentSocket =>
        match opponentSocket.move with
        | none => ({ st with registry := reg0 }, [])
        | some oppMv =>
          let result := determineWinner mv oppMv
          let evs :=
            if result = drawS then
              [(i, Ev.gameResult resDraw), (oppId, Ev.gameResult resDraw)]
            else if result = winS then
              [(i, Ev.gameResult resWon), (oppId, Ev.gameResult resLost)]
            else
              [(oppId, Ev.gameResult resWon), (i, Ev.gameResult resLost)]
          let reg1 := updMove reg0 i none
          let reg2 := updMove reg1 oppId none
          ({ st with registry := reg2 }, evs)

/-- requestRematch handler, server.js lines 237-276. First request sets
the caller flag and notifies both sides; the second request emits the
two rematchReady events, clears both flags and reassigns the opponent
fields; a vanished opponent routes the caller back into matchmaking. -/
def requestRematch (st : ServerState) (i : SId) : ServerState × List (SId × Ev) :=
  match st.registry i with
  | none => (st, [])
  | some socket =>
    match socket.opponent with
    | none => (st, [(i, Ev.opponentLeft noOpponentMsg)])
    | some oppId =>
      match st.registry oppId with
      | none =>
        let reg1 := updOpp st.registry i none
        let r := matchmaking { st with registry := reg1 } i
        (r.1, (i, Ev.opponentLeft oppDisconnectedMsg) :: r.2)
      | some _ =>
        if st.rematchRequests oppId then
          let rr1 := setRR (setRR st.rematchRequests oppId false) i false
          let reg1 := updOpp st.registry i (some oppId)
          let reg2 := updOpp reg1 oppId (some i)
          ({ st with registry := reg2, rematchRequests := rr1 },
           [(i, Ev.rematchReady oppId), (oppId, Ev.rematchReady i)])
        else
          ({ st with rematchRequests := setRR st.rematchRequests i true },
           [(oppId, Ev.opponentWantsRematch), (i, Ev.waitingForOpponentRematch)])

/-- rematchReady handler, server.js lines 279-298: look up the client
supplied opponentId; when registered, reassign both opponent fields and
emit matchFound to both with the caller as offerer, with no check that
the target was related to the caller; else send the caller back into
matchmaking. -/
def rematchReady (st : ServerState) (i opponentId : SId) : ServerState × List (SId × Ev) :=
  match st.registry opponentId with
  | some _ =>
    let reg1 := updOpp st.registry i (some opponentId)
    let reg2 := updOpp reg1 opponentId (some i)
    ({ st with registry := reg2 },
     [(i, Ev.matchFound opponentId offererS), (opponentId, Ev.matchFound i answererS)])
  | none =>
    let reg1 := updOpp st.registry i none
    let r := matchmaking { st with registry := reg1 } i
    (r.1, (i, Ev.opponentLeft oppDisconnectedMsg) :: r.2)

/-- findNewOpponent handler, server.js lines 301-319. -/
def findNewOpponent (st : ServerState) (i : SId) : ServerState × List (SId × Ev) :=
  match st.registry i with
  | none => (st, [])
  | some socket =>
    let r1 :=
      match socket.opponent with
      | some oppId =>
        match st.registry oppId with
        | some _ =>
          let reg1 := updOpp st.registry oppId none
          let stA := { st with registry := reg1,
                               rematchRequests := setRR st.rematchRequests oppId false }
          let r := matchmaking stA oppId
          ({ r.1 with registry := updOpp r.1.registry i none },
           (oppId, Ev.opponentLeft newOpponentMsg) :: r.2)
        | none => ({ st with registry := updOpp st.registry i none }, ([] : List (SId × Ev)))
      | none => (st, ([] : List (SId × Ev)))
    let st2 := { r1.1 with rematchRequests := setRR r1.1.rematchRequests i false }
    let r2 := matchmaking st2 i
    (r2.1, r1.2 ++ r2.2)

/-- disconnect handler, server.js lines 322-340. Socket.io removes the
socket from the registry before the handler runs; the handler then
filters the waiting list, and when the stored opponent is still
registered it notifies it, clears its opponent field and rematch flag
and re-enters it into matchmaking; finally the disconnecting sockets
own rematch entry is deleted. -/
def disconnect (st : ServerState) (i : SId) : ServerState × List (SId × Ev) :=
  match st.registry i with
  | none => (st, [])
  | some socket =>
    let reg0 := delSock st.registry i
    let q1 := st.waitingPlayers.filter (fun j => j != i)
    let base := { st with registry := reg0, waitingPlayers := q1 }
    let r :=
      match socket.opponent with
      | some oppId =>
        match reg0 oppId with
        | some _ =>
          let stB := { base with registry := updOpp reg0 oppId none,
                                 rematchRequests := setRR base.rematchRequests oppId false }
          let r2 := matchmaking stB oppId
          (r2.1, (oppId, Ev.opponentDisconnected oppDisconnectedMsg) :: r2.2)
        | none => (base, ([] : List (SId × Ev)))
      | none => (base, ([] : List (SId × Ev)))
    ({ r.1 with rematchRequests := setRR r.1.rematchRequests i false }, r.2)

/-- The state before any client connects. -/
def initState : ServerState :=
  { registry := fun _ => none, waitingPlayers := [], rematchRequests := fun _ => false }

/-- Client-originated actions used to build concrete traces. -/
inductive Act where
  | connect (i : SId)
  | ready (i : SId)
  | move (i : SId) (mv : String)
  | reqRematch (i : SId)
  | rmReady (i : SId) (opponentId : SId)
  | disc (i : SId)

def stepAct (st : ServerState) (a : Act) : ServerState × List (SId × Ev) :=
  match a with
  | .connect i => connectEv st i
  | .ready i => readyToPlay st i
  | .move i mv => playerMove st i mv
  | .reqRematch i => requestRematch st i
  | .rmReady i oid => rematchReady st i oid
  | .disc i => disconnect st i

/-- Run a trace of actions from the empty server state. -/
def runActs (acts : List Act) : ServerState :=
  acts.foldl (fun st a => (stepAct st a).1) initState

/-- An example of a move value outside the legal move set. -/
def lizardS : String := "lizard"

/-- States reachable from the empty server by connect, ready-to-play and
disconnect events (pairing happens inside the ready and disconnect
handlers), where connect uses a transport-fresh id and ready-to-play is
only sent by a registered session without a current opponent. -/
inductive Reach : ServerState → Prop where
  | init : Reach initState
  | connectStep (st : ServerState) (i : SId) : Reach st → st.registry i = none →
      Reach (connectEv st i).1
  | readyStep (st : ServerState) (i : SId) (s : Session) : Reach st →
      st.registry i = some s → s.opponent = none → Reach (readyToPlay st i).1
  | discStep (st : ServerState) (i : SId) : Reach st → Reach (disconnect st i).1

/-- Queue invariant: at most one waiting player, and every waiting player
is registered with no opponent. -/
def QueueInv (st : ServerState) : Prop :=
  st.waitingPlayers.length ≤ 1 ∧
  ∀ j ∈ st.waitingPlayers, ∃ t, st.registry j = some t ∧ t.opponent = none

/-- State with socket 1 alone in the queue and socket 0 connected. -/
def stQ2 : ServerState := runActs [Act.connect 0, Act.connect 1, Act.ready 1]

/-- State with sockets 0 and 1 paired (1 was the caller of the pairing). -/
def stPair : ServerState := runActs [Act.connect 0, Act.connect 1, Act.ready 0, Act.ready 1]

/-- stPair after socket 1 has requested a rematch. -/
def stRR : ServerState :=
  runActs [Act.connect 0, Act.connect 1, Act.ready 0, Act.ready 1, Act.reqRematch 1]

/-- stPair after socket 1 has submitted scissors. -/
def stMv : ServerState :=
  runActs [Act.connect 0, Act.connect 1, Act.ready 0, Act.ready 1, Act.move 1 scissorsS]

/-- Three sockets, 1 and 2 paired by matchmaking, 0 unpaired. -/
def stTri : ServerState :=
  runActs [Act.connect 0, Act.connect 1, Act.connect 2, Act.ready 1, Act.ready 2]

/-- Socket 0 pairs with 1, stores rock, 2 queues, then 1 disconnects, so
matchmaking re-pairs 0 with 2 while the stored move of 0 is still set. -/
def stCarry : ServerState :=
  runActs [Act.connect 0, Act.connect 1, Act.connect 2, Act.ready 0, Act.ready 1,
           Act.move 0 rockS, Act.ready 2, Act.disc 1]

/-- C1: over the three legal moves, determineWinner yields exactly one of
draw, win, lose; identical moves give a draw and only they do; rock beats
scissors, scissors beats paper, paper beats rock; and swapping the two
moves swaps the winner, a draw being symmetric. -/
theorem c1_determineWinner_total (m1 m2 : String) (h1 : isMove m1) (h2 : isMove m2) :
    ((m1 = m2) ↔ determineWinner m1 m2 = drawS) ∧
    (determineWinner m1 m2 = drawS ∨ determineWinner m1 m2 = winS ∨
      determineWinner m1 m2 = loseS) ∧
    (determineWinner m1 m2 = winS ↔ determineWinner m2 m1 = loseS) ∧
    (determineWinner m1 m2 = drawS ↔ determineWinner m2 m1 = drawS) ∧
    determineWinner rockS scissorsS = winS ∧
    determineWinner scissorsS paperS = winS ∧
    determineWinner paperS rockS = winS := by
  rcases h1 with h | h | h <;> rcases h2 with g | g | g <;> subst h <;> subst g <;>
    refine ⟨?_, ?_, ?_, ?_, ?_, ?_, ?_⟩ <;> decide

/-- C1 witness: the theorem evaluated at rock versus scissors. -/
theorem c1_witness :
    determineWinner rockS scissorsS = drawS ∨ determineWinner rockS scissorsS = winS ∨
      determineWinner rockS scissorsS = loseS :=
  (c1_determineWinner_total rockS scissorsS (Or.inl rfl) (Or.inr (Or.inr rfl))).2.1

/-- C8: a session that is the sole queue member and sends ready-to-play a
second time is paired with itself: its own id is popped, its opponent
field is set to its own id, the queue empties, and it receives both
matchFound events, once as offerer and once as answerer. -/
theorem c8_self_pairing :
    (runActs [Act.connect 0, Act.ready 0]).waitingPlayers = [0] ∧
    (readyToPlay (runActs [Act.connect 0, Act.ready 0]) 0).1.registry 0 =
      some ⟨0, none, some 0, none⟩ ∧
    (readyToPlay (runActs [Act.connect 0, Act.ready 0]) 0).1.waitingPlayers = [] ∧
    (readyToPlay (runActs [Act.connect 0, Act.ready 0]) 0).2 =
      [(0, Ev.matchFound 0 offererS), (0, Ev.matchFound 0 answererS)] := by
  refine ⟨?_, ?_, ?_, ?_⟩ <;> decide

/-- C3 counterexample: with sockets 0 and 1 paired and no moves stored,
socket 0 submits the illegal move lizard; its pendingMove is mutated to
that value, the opponent is untouched, and no event at all is emitted to
anyone, so there is no rejection notification. -/
theorem c3_counterexample :
    (playerMove stPair 0 lizardS).1.registry 0 = some ⟨0, none, some 1, some lizardS⟩ ∧
    (playerMove stPair 0 lizardS).1.registry 1 = some ⟨1, none, some 0, none⟩ ∧
    (playerMove stPair 0 lizardS).2 = [] := by
  refine ⟨?_, ?_, ?_⟩ <;> decide

/-- C4 counterexample: with 0 and 1 paired and 1 having already requested
a rematch, the second request by 0 emits exactly the two rematchReady
events, which carry only the other id and no offerer or answerer role,
so the notification is not of the matchFound shape. -/
theorem c4_counterexample :
    (requestRematch stRR 0).2 = [(0, Ev.rematchReady 1), (1, Ev.rematchReady 0)] := by
  decide

/-- C5 counterexample: socket 0 pairs with 1, stores rock, 2 queues, then
1 disconnects and matchmaking re-pairs 0 with 2; in the final state the
stored move of 0 survived the re-pairing. -/
theorem c5_counterexample :
    (runActs [Act.connect 0, Act.connect 1, Act.connect 2, Act.ready 0, Act.ready 1,
              Act.move 0 rockS, Act.ready 2, Act.disc 1]).registry 0 =
      some ⟨0, none, some 2, some rockS⟩ := by
  decide

/-- C7 counterexample: after a single connect, socket 0 has no opponent
and is not queued, refuting the only-if direction of the claimed iff;
and a paired socket that re-sends ready-to-play ends up in the queue
while its opponent field is still set, refuting both directions. -/
theorem c7_counterexample :
    ((runActs [Act.connect 0]).registry 0 = some ⟨0, none, none, none⟩ ∧
     (runActs [Act.connect 0]).waitingPlayers = []) ∧
    ((runActs [Act.connect 0, Act.connect 1, Act.ready 0, Act.ready 1,
               Act.ready 0]).waitingPlayers = [0] ∧
     (runActs [Act.connect 0, Act.connect 1, Act.ready 0, Act.ready 1,
               Act.ready 0]).registry 0 = some ⟨0, none, some 1, none⟩) := by
  refine ⟨⟨?_, ?_⟩, ?_, ?_⟩ <;> decide

/-- C2: matchmaking by a registered unpaired caller either appends the
caller to the tail of the empty queue and emits waitingForOpponent to
the caller only, or, when the queue head is still registered, pops it
and establishes a symmetric pairing: right after the matchFound pair is
emitted, each of the two opponent fields resolves to the other id. -/
theorem c2_matchmaking_enqueue_or_pair (st : ServerState) (i : SId) (s : Session)
    (hreg : st.registry i = some s) (_hunp : s.opponent = none) :
    (st.waitingPlayers = [] →
       (matchmaking st i).1.waitingPlayers = st.waitingPlayers ++ [i] ∧
       (matchmaking st i).2 = [(i, Ev.waitingForOpponent)]) ∧
    (∀ h rest, st.waitingPlayers = h :: rest → ∀ hs, st.registry h = some hs →
       ∃ si sh,
         (matchmaking st i).1.registry i = some si ∧ si.opponent = some h ∧
         (matchmaking st i).1.registry h = some sh ∧ sh.opponent = some i ∧
         (matchmaking st i).2 =
           [(i, Ev.matchFound h offererS), (h, Ev.matchFound i answererS)]) := by
  constructor
  · intro hq
    simp [matchmaking, hq, matchLoop]
  · intro h rest hq hs hh
    by_cases hih : i = h
    · subst hih
      have hse : s = hs := by rw [hreg] at hh; exact Option.some.inj hh
      subst hse
      refine ⟨{ s with opponent := some i }, { s with opponent := some i }, ?_⟩
      simp [matchmaking, hq, matchLoop, hh, updOpp, hreg]
    · have hhi : ¬ h = i := fun e => hih e.symm
      refine ⟨{ s with opponent := some h }, { hs with opponent := some i }, ?_⟩
      simp [matchmaking, hq, matchLoop, hh, updOpp, hreg, hih, hhi]

/-- C2 witness: the theorem applied with socket 1 waiting alone in the
queue and unpaired socket 0 entering matchmaking. -/
theorem c2_witness :
    ∃ si sh,
      (matchmaking stQ2 0).1.registry 0 = some si ∧ si.opponent = some 1 ∧
      (matchmaking stQ2 0).1.registry 1 = some sh ∧ sh.opponent = some 0 ∧
      (matchmaking stQ2 0).2 =
        [(0, Ev.matchFound 1 offererS), (1, Ev.matchFound 0 answererS)] :=
  (c2_matchmaking_enqueue_or_pair stQ2 0 (freshSession 0) (by decide) (by decide)).2
    1 [] (by decide) (freshSession 1) (by decide)

/-- C3 amended: a submitted move value, legal or not, is stored as-is as
the senders pendingMove without any rejection; when the opponent has no
stored move yet, no event at all is emitted and the opponent session is
unchanged. -/
theorem c3_amended_move_stored_unvalidated (st : ServerState) (i o : SId) (s os : Session)
    (mv : String) (hio : i ≠ o) (hreg : st.registry i = some s)
    (hopp : s.opponent = some o) (hos : st.registry o = some os) (hnom : os.move = none) :
    (playerMove st i mv).1.registry i = some { s with move := some mv } ∧
    (playerMove st i mv).1.registry o = some os ∧
    (playerMove st i mv).2 = [] := by
  have hoi : ¬ o = i := fun e => hio e.symm
  simp [playerMove, hreg, hopp, hos, hnom, setSock, hoi]

/-- C3 witness: the amended theorem applied to socket 0 of the paired
state submitting the illegal move lizard. -/
theorem c3_witness :
    (playerMove stPair 0 lizardS).1.registry 0 =
      some { (⟨0, none, some 1, none⟩ : Session) with move := some lizardS } ∧
    (playerMove stPair 0 lizardS).1.registry 1 = some ⟨1, none, some 0, none⟩ ∧
    (playerMove stPair 0 lizardS).2 = [] :=
  c3_amended_move_stored_unvalidated stPair 0 1 ⟨0, none, some 1, none⟩ ⟨1, none, some 0, none⟩
    lizardS (by decide) (by decide) (by decide) (by decide) (by decide)

/-- C4 amended: the second rematch request of the handshake clears both
rematch flags and re-establishes the symmetric pairing, but the two
sessions are notified with the two rematchReady events, which carry only
the other id and no offerer or answerer role; the matchFound shaped
notification with fresh roles is only emitted by the companion
rematch-ready message. -/
theorem c4_amended_second_request (st : ServerState) (i o : SId) (s os : Session)
    (hio : i ≠ o) (hreg : st.registry i = some s) (hopp : s.opponent = some o)
    (hos : st.registry o = some os) (hrr : st.rematchRequests o = true) :
    (requestRematch st i).1.rematchRequests i = false ∧
    (requestRematch st i).1.rematchRequests o = false ∧
    (requestRematch st i).1.registry i = some { s with opponent := some o } ∧
    (requestRematch st i).1.registry o = some { os with opponent := some i } ∧
    (requestRematch st i).2 = [(i, Ev.rematchReady o), (o, Ev.rematchReady i)] := by
  have hoi : ¬ o = i := fun e => hio e.symm
  simp [requestRematch, hreg, hopp, hos, hrr, setRR, updOpp, hio, hoi]

/-- C4 witness: the amended theorem applied to the paired state in which
socket 1 already requested a rematch and socket 0 sends the second
request. -/
theorem c4_witness :
    (requestRematch stRR 0).1.rematchRequests 0 = false ∧
    (requestRematch stRR 0).1.rematchRequests 1 = false ∧
    (requestRematch stRR 0).1.registry 0 =
      some { (⟨0, none, some 1, none⟩ : Session) with opponent := some 1 } ∧
    (requestRematch stRR 0).1.registry 1 =
      some { (⟨1, none, some 0, none⟩ : Session) with opponent := some 0 } ∧
    (requestRematch stRR 0).2 = [(0, Ev.rematchReady 1), (1, Ev.rematchReady 0)] :=
  c4_amended_second_request stRR 0 1 ⟨0, none, some 1, none⟩ ⟨1, none, some 0, none⟩
    (by decide) (by decide) (by decide) (by decide) (by decide)

/-- Assigning an opponent field never changes any stored move. -/
theorem updOpp_preserves_move (reg : SId → Option Session) (k : SId) (v : Option SId)
    (j : SId) (sj : Session) (hj : reg j = some sj) :
    ∃ t, updOpp reg k v j = some t ∧ t.move = sj.move := by
  by_cases hjk : j = k
  · subst hjk
    exact ⟨{ sj with opponent := v }, by simp [updOpp, hj], rfl⟩
  · exact ⟨sj, by simp [updOpp, hjk, hj], rfl⟩

/-- C5 amended: round resolution clears both pendingMove fields, but
re-pairing does not clear them: a matchmaking pairing and a
rematch-ready re-pairing both leave both sessions stored moves exactly
as they were, so a stored move can be carried across a re-pairing
boundary. -/
theorem c5_amended_moves_cleared_on_resolution_only (st : ServerState) (i o : SId)
    (s os : Session) (mv omv : String) (hio : i ≠ o) (hreg : st.registry i = some s)
    (hopp : s.opponent = some o) (hos : st.registry o = some os)
    (hom : os.move = some omv) :
    ((∃ si, (playerMove st i mv).1.registry i = some si ∧ si.move = none) ∧
     (∃ so2, (playerMove st i mv).1.registry o = some so2 ∧ so2.move = none)) ∧
    (∀ st2 : ServerState, ∀ j h : SId, ∀ rest : List SId, ∀ sj hs : Session,
       st2.waitingPlayers = h :: rest → st2.registry j = some sj →
       st2.registry h = some hs →
       ∃ sj2 sh2,
         (matchmaking st2 j).1.registry j = some sj2 ∧ sj2.move = sj.move ∧
         (matchmaking st2 j).1.registry h = some sh2 ∧ sh2.move = hs.move) ∧
    (∀ st3 : ServerState, ∀ k oid : SId, ∀ sk so3 : Session,
       st3.registry k = some sk → st3.registry oid = some so3 →
       ∃ sk2 sd2,
         (rematchReady st3 k oid).1.registry k = some sk2 ∧ sk2.move = sk.move ∧
         (rematchReady st3 k oid).1.registry oid = some sd2 ∧ sd2.move = so3.move) := by
  have hoi : ¬ o = i := fun e => hio e.symm
  refine ⟨⟨?_, ?_⟩, ?_, ?_⟩
  · refine ⟨{ s with move := none }, ?_, rfl⟩
    simp [playerMove, hreg, hopp, hos, hom, setSock, updMove, hoi, hio]
  · refine ⟨{ os with move := none }, ?_, rfl⟩
    simp [playerMove, hreg, hopp, hos, hom, setSock, updMove, hoi, hio]
  · intro st2 j h rest sj hs hq hj hh
    have hj1 := updOpp_preserves_move st2.registry j (some h) j sj hj
    obtain ⟨t1, ht1, hm1⟩ := hj1
    have hj2 := updOpp_preserves_move (updOpp st2.registry j (some h)) h (some j) j t1 ht1
    obtain ⟨t2, ht2, hm2⟩ := hj2
    have hh1 := updOpp_preserves_move st2.registry j (some h) h hs hh
    obtain ⟨u1, hu1, hn1⟩ := hh1
    have hh2 := updOpp_preserves_move (updOpp st2.registry j (some h)) h (some j) h u1 hu1
    obtain ⟨u2, hu2, hn2⟩ := hh2
    refine ⟨t2, u2, ?_, hm2.trans hm1, ?_, hn2.trans hn1⟩
    · simp [matchmaking, hq, matchLoop, hh]
      exact ht2
    · simp [matchmaking, hq, matchLoop, hh]
      exact hu2
  · intro st3 k oid sk so3 hk hoid
    have hk1 := updOpp_preserves_move st3.registry k (some oid) k sk hk
    obtain ⟨t1, ht1, hm1⟩ := hk1
    have hk2 := updOpp_preserves_move (updOpp st3.registry k (some oid)) oid (some k) k t1 ht1
    obtain ⟨t2, ht2, hm2⟩ := hk2
    have hd1 := updOpp_preserves_move st3.registry k (some oid) oid so3 hoid
    obtain ⟨u1, hu1, hn1⟩ := hd1
    have hd2 := updOpp_preserves_move (updOpp st3.registry k (some oid)) oid (some k) oid u1 hu1
    obtain ⟨u2, hu2, hn2⟩ := hd2
    refine ⟨t2, u2, ?_, hm2.trans hm1, ?_, hn2.trans hn1⟩
    · simp [rematchReady, hoid]
      exact ht2
    · simp [rematchReady, hoid]
      exact hu2

/-- C5 witness: the amended theorem applied to the paired state in which
socket 1 already stores scissors and socket 0 submits rock; to the
matchmaking of socket 0 against the queue holding socket 1; and to the
rematch-ready re-pairing of any two registered sockets of that state. -/
theorem c5_witness :
    ((∃ si, (playerMove stMv 0 rockS).1.registry 0 = some si ∧ si.move = none) ∧
     (∃ so2, (playerMove stMv 0 rockS).1.registry 1 = some so2 ∧ so2.move = none)) ∧
    (∀ st2 : ServerState, ∀ j h : SId, ∀ rest : List SId, ∀ sj hs : Session,
       st2.waitingPlayers = h :: rest → st2.registry j = some sj →
       st2.registry h = some hs →
       ∃ sj2 sh2,
         (matchmaking st2 j).1.registry j = some sj2 ∧ sj2.move = sj.move ∧
         (matchmaking st2 j).1.registry h = some sh2 ∧ sh2.move = hs.move) ∧
    (∀ st3 : ServerState, ∀ k oid : SId, ∀ sk so3 : Session,
       st3.registry k = some sk → st3.registry oid = some so3 →
       ∃ sk2 sd2,
         (rematchReady st3 k oid).1.registry k = some sk2 ∧ sk2.move = sk.move ∧
         (rematchReady st3 k oid).1.registry oid = some sd2 ∧ sd2.move = so3.move) :=
  c5_amended_moves_cleared_on_resolution_only stMv 0 1 ⟨0, none, some 1, none⟩
    ⟨1, none, some 0, some scissorsS⟩ rockS scissorsS (by decide) (by decide) (by decide)
    (by decide) (by decide)

/-- Filtering out an id that is not in the list is the identity. -/
theorem filter_bne_of_not_mem (q : List SId) (i : SId) (h : i ∉ q) :
    q.filter (fun j => j != i) = q := by
  rw [List.filter_eq_self]
  intro a ha
  simp only [bne_iff_ne, ne_eq, decide_eq_true_eq]
  exact fun e => h (e ▸ ha)

/-- C6: disconnecting a registered session that has no opponent and is
not queued removes it from the registry and mutates nothing else: the
queue filter is a no-op, every other registry entry and every other
rematch flag is unchanged, and no event is emitted. -/
theorem c6_disconnect_frame (st : ServerState) (i : SId) (s : Session)
    (hreg : st.registry i = some s) (hopp : s.opponent = none)
    (hq : i ∉ st.waitingPlayers) :
    (disconnect st i).1.waitingPlayers = st.waitingPlayers ∧
    (disconnect st i).1.registry i = none ∧
    (∀ j, j ≠ i → (disconnect st i).1.registry j = st.registry j) ∧
    (∀ j, j ≠ i → (disconnect st i).1.rematchRequests j = st.rematchRequests j) ∧
    (disconnect st i).2 = [] := by
  refine ⟨?_, ?_, ?_, ?_, ?_⟩
  · simp [disconnect, hreg, hopp, filter_bne_of_not_mem st.waitingPlayers i hq]
  · simp [disconnect, hreg, hopp, delSock]
  · intro j hj
    simp [disconnect, hreg, hopp, delSock, hj]
  · intro j hj
    simp [disconnect, hreg, hopp, setRR, hj]
  · simp [disconnect, hreg, hopp]

/-- C6 witness: the theorem applied to a lone freshly connected socket. -/
theorem c6_witness :
    (disconnect (connectEv initState 0).1 0).1.waitingPlayers =
      (connectEv initState 0).1.waitingPlayers ∧
    (disconnect (connectEv initState 0).1 0).1.registry 0 = none ∧
    (disconnect (connectEv initState 0).1 0).2 = [] := by
  have h := c6_disconnect_frame (connectEv initState 0).1 0 (freshSession 0)
    (by decide) (by decide) (by decide)
  exact ⟨h.1, h.2.1, h.2.2.2.2⟩

/-- matchLoop started by a registered unpaired caller on a queue of at
most one entry whose members are registered and unpaired yields a queue
with the same properties. -/
theorem matchLoop_queueInv (reg : SId → Option Session) (i : SId) (q : List SId)
    (s : Session) (hlen : q.length ≤ 1)
    (hq : ∀ j ∈ q, ∃ t, reg j = some t ∧ t.opponent = none)
    (hi : reg i = some s) (hio : s.opponent = none) :
    (matchLoop reg i q).2.1.length ≤ 1 ∧
    ∀ j ∈ (matchLoop reg i q).2.1,
      ∃ t, (matchLoop reg i q).1 j = some t ∧ t.opponent = none := by
  match q with
  | [] =>
    simp [matchLoop]
    exact ⟨s, hi, hio⟩
  | [h] =>
    cases hh : reg h with
    | some hs => simp [matchLoop, hh]
    | none =>
      simp [matchLoop, hh]
      exact ⟨s, hi, hio⟩
  | a :: b :: t => simp at hlen

/-- matchmaking by a registered unpaired caller preserves QueueInv. -/
theorem matchmaking_queueInv (st : ServerState) (i : SId) (s : Session)
    (hinv : QueueInv st) (hi : st.registry i = some s) (hio : s.opponent = none) :
    QueueInv (matchmaking st i).1 := by
  obtain ⟨hlen, hq⟩ := hinv
  have h := matchLoop_queueInv st.registry i st.waitingPlayers s hlen hq hi hio
  exact ⟨h.1, h.2⟩

/-- Connecting a fresh socket preserves QueueInv. -/
theorem connect_queueInv (st : ServerState) (i : SId) (hinv : QueueInv st)
    (hfresh : st.registry i = none) : QueueInv (connectEv st i).1 := by
  obtain ⟨hlen, hq⟩ := hinv
  refine ⟨hlen, ?_⟩
  intro j hj
  obtain ⟨t, ht, hto⟩ := hq j hj
  have hji : ¬ j = i := fun e => by rw [e, hfresh] at ht; cases ht
  exact ⟨t, by simp [connectEv, setSock, hji, ht], hto⟩

/-- The disconnect handler preserves QueueInv. -/
theorem disconnect_queueInv (st : ServerState) (i : SId) (hinv : QueueInv st) :
    QueueInv (disconnect st i).1 := by
  obtain ⟨hlen, hq⟩ := hinv
  cases hsi : st.registry i with
  | none => simpa [disconnect, hsi] using ⟨hlen, hq⟩
  | some socket =>
    have hlen1 : (st.waitingPlayers.filter (fun j => j != i)).length ≤ 1 :=
      le_trans (List.length_filter_le _ _) hlen
    have hq1 : ∀ j ∈ st.waitingPlayers.filter (fun j => j != i),
        ∃ t, delSock st.registry i j = some t ∧ t.opponent = none := by
      intro j hj
      rw [List.mem_filter] at hj
      obtain ⟨hjm, hjne⟩ := hj
      have hji : ¬ j = i := by simpa [bne_iff_ne] using hjne
      obtain ⟨t, ht, hto⟩ := hq j hjm
      exact ⟨t, by simp [delSock, hji, ht], hto⟩
    cases hso : socket.opponent with
    | none =>
      have hwq : (disconnect st i).1.waitingPlayers =
          st.waitingPlayers.filter (fun j => j != i) := by
        simp [disconnect, hsi, hso]
      have hwr : (disconnect st i).1.registry = delSock st.registry i := by
        simp [disconnect, hsi, hso]
      refine ⟨hwq ▸ hlen1, ?_⟩
      intro j hj
      rw [hwq] at hj
      rw [hwr]
      exact hq1 j hj
    | some oppId =>
      cases hro : delSock st.registry i oppId with
      | none =>
        have hwq : (disconnect st i).1.waitingPlayers =
            st.waitingPlayers.filter (fun j => j != i) := by
          simp [disconnect, hsi, hso, hro]
        have hwr : (disconnect st i).1.registry = delSock st.registry i := by
          simp [disconnect, hsi, hso, hro]
        refine ⟨hwq ▸ hlen1, ?_⟩
        intro j hj
        rw [hwq] at hj
        rw [hwr]
        exact hq1 j hj
      | some os =>
        have hq2 : ∀ j ∈ st.waitingPlayers.filter (fun j => j != i),
            ∃ t, updOpp (delSock st.registry i) oppId none j = some t ∧
              t.opponent = none := by
          intro j hj
          obtain ⟨t, ht, hto⟩ := hq1 j hj
          by_cases hjo : j = oppId
          · subst hjo
            exact ⟨{ t with opponent := none }, by simp [updOpp, ht], rfl⟩
          · exact ⟨t, by simp [updOpp, hjo, ht], hto⟩
        have hiB : updOpp (delSock st.registry i) oppId none oppId =
            some { os with opponent := none } := by
          simp [updOpp, hro]
        have h := matchLoop_queueInv (updOpp (delSock st.registry i) oppId none) oppId
          (st.waitingPlayers.filter (fun j => j != i)) { os with opponent := none }
          hlen1 hq2 hiB rfl
        have hwq : (disconnect st i).1.waitingPlayers =
            (matchLoop (updOpp (delSock st.registry i) oppId none) oppId
              (st.waitingPlayers.filter (fun j => j != i))).2.1 := by
          simp [disconnect, hsi, hso, hro, matchmaking]
        have hwr : (disconnect st i).1.registry =
            (matchLoop (updOpp (delSock st.registry i) oppId none) oppId
              (st.waitingPlayers.filter (fun j => j != i))).1 := by
          simp [disconnect, hsi, hso, hro, matchmaking]
        refine ⟨hwq ▸ h.1, ?_⟩
        intro j hj
        rw [hwq] at hj
        rw [hwr]
        exact h.2 j hj

/-- Every reachable state satisfies QueueInv. -/
theorem reach_queueInv (st : ServerState) (h : Reach st) : QueueInv st := by
  induction h with
  | init => exact ⟨by simp [initState], by simp [initState]⟩
  | connectStep st i hr hfresh ih => exact connect_queueInv st i ih hfresh
  | readyStep st i s hr hreg hopp ih => exact matchmaking_queueInv st i s ih hreg hopp
  | discStep st i hr ih => exact disconnect_queueInv st i ih

/-- C7 amended: in every state reachable by connect, ready-to-play and
disconnect events in which connect uses a fresh id and ready-to-play is
only sent by registered sessions without a current opponent, every
member of the matchmaking queue is registered with an absent opponent
field, so no session is simultaneously queued and paired; the converse
direction of the claimed iff fails, since a connected session is
unqueued and unpaired until its first ready-to-play, and without the
ready-to-play restriction a paired session re-sending ready-to-play
becomes queued while paired. -/
theorem c7_amended_queued_implies_unpaired (st : ServerState) (i : SId) (s : Session)
    (hr : Reach st) (hq : i ∈ st.waitingPlayers) (hreg : st.registry i = some s) :
    s.opponent = none := by
  obtain ⟨t, ht, hto⟩ := (reach_queueInv st hr).2 i hq
  rw [hreg] at ht
  have : s = t := Option.some.inj ht
  rw [this]
  exact hto

/-- C7 witness: the amended theorem applied to the reachable state in
which socket 0 connected and queued itself. -/
theorem c7_witness : (freshSession 0).opponent = none :=
  c7_amended_queued_implies_unpaired (readyToPlay (connectEv initState 0).1 0).1 0
    (freshSession 0)
    (Reach.readyStep (connectEv initState 0).1 0 (freshSession 0)
      (Reach.connectStep initState 0 Reach.init rfl) rfl rfl)
    (by decide) (by decide)

/-- The events emitted by matchLoop are either the single waiting event
to the caller or a matchFound pair with the caller as offerer and the
popped session as answerer. -/
theorem matchLoop_roles (reg : SId → Option Session) (i : SId) (q : List SId) :
    (matchLoop reg i q).2.2 = [(i, Ev.waitingForOpponent)] ∨
    ∃ h, (matchLoop reg i q).2.2 =
      [(i, Ev.matchFound h offererS), (h, Ev.matchFound i answererS)] := by
  induction q with
  | nil => left; rfl
  | cons a t ih =>
    cases ha : reg a with
    | some hs =>
      right
      exact ⟨a, by simp [matchLoop, ha]⟩
    | none => simpa [matchLoop, ha] using ih

/-- C9: role assignment is deterministic and fixed by queue position:
whenever matchmaking pairs, the caller is notified as offerer and the
dequeued session as answerer; and the rematch-ready handler always
notifies the caller as offerer and the session named by the supplied
opponentId as answerer. -/
theorem c9_roles_fixed_by_position :
    (∀ st : ServerState, ∀ i : SId,
       (matchmaking st i).2 = [(i, Ev.waitingForOpponent)] ∨
       ∃ h, (matchmaking st i).2 =
         [(i, Ev.matchFound h offererS), (h, Ev.matchFound i answererS)]) ∧
    (∀ st : ServerState, ∀ i oid : SId, ∀ so : Session, st.registry oid = some so →
       (rematchReady st i oid).2 =
         [(i, Ev.matchFound oid offererS), (oid, Ev.matchFound i answererS)]) := by
  constructor
  · intro st i
    simpa [matchmaking] using matchLoop_roles st.registry i st.waitingPlayers
  · intro st i oid so h
    simp [rematchReady, h]

/-- C9 witness: the rematch-ready part applied to the three-socket state
with caller 0 naming the registered socket 1. -/
theorem c9_witness :
    (rematchReady stTri 0 1).2 =
      [(0, Ev.matchFound 1 offererS), (1, Ev.matchFound 0 answererS)] :=
  c9_roles_fixed_by_position.2 stTri 0 1 ⟨1, none, some 2, none⟩ (by decide)

/-- C10: the rematch-ready handler pairs the caller with whatever
registered session the client supplied opponentId resolves to, with no
check that it was the callers opponent: the targets opponent field is
overwritten with the callers id and the callers with the target id; in
the concrete three-socket state where 1 and 2 are paired, outsider 0
naming 1 leaves 2 with a dangling opponent reference to 1 while 1
points back to 0. -/
theorem c10_rematchReady_hijack :
    (∀ st : ServerState, ∀ i oid : SId, ∀ so : Session, st.registry oid = some so →
       (rematchReady st i oid).1.registry oid = some { so with opponent := some i }) ∧
    (∀ st : ServerState, ∀ i oid : SId, ∀ s so : Session, i ≠ oid →
       st.registry i = some s → st.registry oid = some so →
       (rematchReady st i oid).1.registry i = some { s with opponent := some oid }) ∧
    ((rematchReady stTri 0 1).1.registry 0 = some ⟨0, none, some 1, none⟩ ∧
     (rematchReady stTri 0 1).1.registry 1 = some ⟨1, none, some 0, none⟩ ∧
     (rematchReady stTri 0 1).1.registry 2 = some ⟨2, none, some 1, none⟩) := by
  refine ⟨?_, ?_, by decide, by decide, by decide⟩
  · intro st i oid so h
    by_cases hio : oid = i
    · subst hio
      simp [rematchReady, h, updOpp]
    · simp [rematchReady, h, updOpp, hio]
  · intro st i oid s so hio hreg hoid
    have hoi : ¬ i = oid := hio
    simp [rematchReady, hoid, updOpp, hoi, hreg]

/-- C10 witness: the overwriting part applied to the three-socket state,
with outsider 0 naming socket 1 which was paired with 2. -/
theorem c10_witness :
    (rematchReady stTri 0 1).1.registry 1 =
      some { (⟨1, none, some 2, none⟩ : Session) with opponent := some 0 } :=
  c10_rematchReady_hijack.1 stTri 0 1 ⟨1, none, some 2, none⟩ (by decide)
